import Mathlib

/-!
Shallow embedding of the Voice-Sandwich-Agent Recognition adapter
(src/components/typescript/src/assemblyai/stt.ts: class AssemblyAISTT and the
Lambda-side getSecrets helper), together with theorems settling the spec claims.
Effectful WebSocket operations are modelled as explicit action traces, the
push-based buffer iterator as a FIFO list, and JavaScript truthiness of optional
strings, numbers and booleans by explicit helpers.
-/

namespace VoiceSandwich

/-- Event union of the pipeline (spec section 3; the wire shape carries a type
tag plus kind-specific payload). The Recognition stage in stt.ts constructs only
the stt_chunk and stt_output variants. -/
inductive VoiceAgentEvent where
  | audio_in (bytes : List Nat)
  | stt_chunk (transcript : String) (ts : Nat)
  | stt_output (transcript : String) (ts : Nat)
  | agent_chunk (text : String)
  | tool_call (name : String) (args : String) (result : String)
  | agent_end
  | tts_chunk (bytes : List Nat)
  | error (kind : String) (message : String)
  deriving Repr, DecidableEq

/-- Parsed vendor messages of the AssemblyAI streaming API as dispatched on in
the ws "message" handler (stt.ts lines 44-61): Begin, Turn (with transcript and
turn_is_formatted), Termination, Error (with an error string). -/
inductive AssemblyAISTTMessage where
  | Begin
  | Turn (transcript : String) (turn_is_formatted : Bool)
  | Termination
  | Error (error : String)
  deriving Repr, DecidableEq

/-- Observable outcome of one run of the ws "message" handler: the events pushed
onto the buffer iterator, whether console.error ran (the catch block), and
whether the buffer iterator was cancelled. -/
structure HandlerResult where
  pushed : List VoiceAgentEvent
  loggedError : Bool
  cancelled : Bool
  deriving Repr, DecidableEq

/-- Body of the try block of the ws "message" handler (stt.ts lines 41-61),
after a successful JSON.parse: Begin and Termination only log; a Turn pushes
stt_output when turn_is_formatted and the transcript is truthy (non-empty),
nothing when formatted but empty, and stt_chunk when unformatted; an Error
message throws (modelled as Except.error). -/
def handleParsedMessage (now : Nat) : AssemblyAISTTMessage → Except String (List VoiceAgentEvent)
  | .Begin => .ok []
  | .Turn transcript turn_is_formatted =>
      if turn_is_formatted then
        if transcript = "" then .ok []
        else .ok [.stt_output transcript now]
      else .ok [.stt_chunk transcript now]
  | .Termination => .ok []
  | .Error e => .error e

/-- The ws "message" handler (stt.ts lines 39-66). Raw data is modelled as the
result of JSON.parse: none when the data does not parse to a recognized shape.
Both a parse failure and the throw raised on an "Error" message are caught by
the same surrounding catch, which only runs console.error; the handler never
cancels the buffer iterator and never pushes an error event. -/
def wsMessageHandler (now : Nat) (data : Option AssemblyAISTTMessage) : HandlerResult :=
  match data with
  | none => { pushed := [], loggedError := true, cancelled := false }
  | some m =>
      match handleParsedMessage now m with
      | .ok evs => { pushed := evs, loggedError := false, cancelled := false }
      | .error _ => { pushed := [], loggedError := true, cancelled := false }

/-- The ws "error" handler (stt.ts lines 68-71): cancels the buffer iterator and
rejects the connection promise; used only for connection-level socket errors,
not for vendor messages of type Error. -/
def wsErrorHandler : HandlerResult :=
  { pushed := [], loggedError := false, cancelled := true }

/-- Recognizer of the two event kinds the Recognition stage may emit. -/
def isSTTEventKind : VoiceAgentEvent → Bool
  | .stt_chunk _ _ => true
  | .stt_output _ _ => true
  | _ => false

/-- Recognizer of finalized-turn events. -/
def isSTTOutput : VoiceAgentEvent → Bool
  | .stt_output _ _ => true
  | _ => false

/-- Number of stt_output events in a list. -/
def sttOutputCount (evs : List VoiceAgentEvent) : Nat :=
  (evs.filter isSTTOutput).length

/-- Modelled from the spec: `writableIterator` is imported from
src/components/typescript/src/utils, which is absent from the snapshot. Per the
spec (section 9), vendor push notifications are deposited into an internal queue
per adapter and the stage drains the queue as a lazy sequence; modelled as a
FIFO buffer with push, cancel and an in-order drain. -/
structure WritableIterator (α : Type) where
  buffer : List α
  closed : Bool
  deriving Repr, DecidableEq

/-- Append one element at the tail of the queue; a cancelled queue drops it. -/
def WritableIterator.push {α : Type} (it : WritableIterator α) (x : α) : WritableIterator α :=
  if it.closed then it else { it with buffer := it.buffer ++ [x] }

/-- Cancel the queue (the ws "error" handler calls this). -/
def WritableIterator.cancel {α : Type} (it : WritableIterator α) : WritableIterator α :=
  { it with closed := true }

/-- Push a batch of elements in order. -/
def pushAll {α : Type} (it : WritableIterator α) (xs : List α) : WritableIterator α :=
  xs.foldl WritableIterator.push it

/-- Run the ws "message" handler on each arriving (timestamp, raw data) pair in
arrival order, depositing the produced events into the buffer iterator. -/
def processMessages (it : WritableIterator VoiceAgentEvent)
    (msgs : List (Nat × Option AssemblyAISTTMessage)) : WritableIterator VoiceAgentEvent :=
  msgs.foldl (fun acc nd => pushAll acc (wsMessageHandler nd.1 nd.2).pushed) it

/-- Events the handler produces for a list of arriving messages, in arrival
order. -/
def emittedEvents : List (Nat × Option AssemblyAISTTMessage) → List VoiceAgentEvent
  | [] => []
  | nd :: rest => (wsMessageHandler nd.1 nd.2).pushed ++ emittedEvents rest

/-- AssemblyAISTT.receiveEvents (stt.ts lines 96-98): yields the buffer
iterator's contents as a sequence, in deposit order. -/
def receiveEvents (it : WritableIterator VoiceAgentEvent) : List VoiceAgentEvent :=
  it.buffer

/-- Connection-relevant state of an AssemblyAISTT instance: whether
_connectionPromise is non-null, and the buffer iterator. The ws "close" handler
(stt.ts lines 73-75) resets _connectionPromise to null. -/
structure STTState where
  hasConnection : Bool
  events : WritableIterator VoiceAgentEvent
  deriving Repr, DecidableEq

/-- Observable outcome of AssemblyAISTT.sendAudio. -/
inductive SendAudioResult where
  | sentOnExistingConnection
  | openedNewConnectionAndSent
  | rejectedWithError (msg : String)
  deriving Repr, DecidableEq

/-- AssemblyAISTT.sendAudio (stt.ts lines 91-94) together with the _connection
getter (lines 19-78): when _connectionPromise is non-null the audio is sent on
it; when it is null — as after the ws "close" handler has run — the getter
creates a fresh WebSocket connection and the audio is sent on that; no check of
session state ever rejects the call. -/
def sendAudio (s : STTState) : STTState × SendAudioResult :=
  if s.hasConnection then (s, .sentOnExistingConnection)
  else ({ s with hasConnection := true }, .openedNewConnectionAndSent)

/-- Primitive steps of AssemblyAISTT.close, in execution order. -/
inductive CloseAction where
  | sendTerminate
  | waitMs (ms : Nat)
  | closeWs
  deriving Repr, DecidableEq

/-- Action trace of AssemblyAISTT.close (stt.ts lines 100-114). With an open
connection: send the terminate_session message, await a 100 ms setTimeout, then
ws.close(); if ws.send throws, the catch logs and ws.close() still runs (the
wait inside the try is skipped). With _connectionPromise null the whole body is
skipped. -/
def closeActions (hasConnection : Bool) (sendThrew : Bool) : List CloseAction :=
  if hasConnection then
    if sendThrew then [.sendTerminate, .closeWs]
    else [.sendTerminate, .waitMs 100, .closeWs]
  else []

/-- AssemblyAISTT.close at state level: after a completed close the ws "close"
event (stt.ts lines 73-75) has reset _connectionPromise to null, so the
post-state has no connection; the buffer iterator is untouched by close. -/
def closeStep (s : STTState) (sendThrew : Bool) : STTState × List CloseAction :=
  if s.hasConnection then
    ({ s with hasConnection := false }, closeActions true sendThrew)
  else (s, [])

/-- Process environment, a partial map from variable names to values. -/
def Env : Type := String → Option String

/-- Set one environment variable. -/
def setEnvVar (env : Env) (k v : String) : Env :=
  fun x => if x = k then some v else env x

/-- Set every pair of a record as an environment variable (getSecrets, stt.ts
lines 158-160). -/
def setEnvAll (env : Env) (kvs : List (String × String)) : Env :=
  kvs.foldl (fun e kv => setEnvVar e kv.1 kv.2) env

/-- JavaScript truthiness fallback `a || b` for an optional string: undefined
and "" are falsy. -/
def tsOrStr (a : Option String) (b : String) : String :=
  match a with
  | some s => if s = "" then b else s
  | none => b

/-- JavaScript truthiness fallback `a || b` for an optional number: undefined
and 0 are falsy. -/
def tsOrNat (a : Option Nat) (b : Nat) : Nat :=
  match a with
  | some n => if n = 0 then b else n
  | none => b

/-- JavaScript truthiness fallback `a || b` for an optional boolean: undefined
and false are falsy. -/
def tsOrBool (a : Option Bool) (b : Bool) : Bool :=
  match a with
  | some x => x || b
  | none => b

/-- Truthiness test: true when the optional string is absent or empty. -/
def tsFalsyStr : Option String → Bool
  | none => true
  | some s => s = ""

/-- Constructor options interface AssemblyAISTTOptions (stt.ts lines 6-10); all
fields optional. -/
structure AssemblyAISTTOptions where
  apiKey : Option String
  sampleRate : Option Nat
  formatTurns : Option Bool
  deriving Repr, DecidableEq

/-- Configured fields of a constructed AssemblyAISTT instance (stt.ts lines
13-15). -/
structure AssemblyAISTT where
  apiKey : String
  sampleRate : Nat
  formatTurns : Bool
  deriving Repr, DecidableEq

/-- Name of the environment variable the constructor falls back to. -/
def envKeyName : String := "ASSEMBLYAI_API_KEY"

/-- The AssemblyAISTT constructor (stt.ts lines 81-89):
apiKey = options.apiKey || process.env.ASSEMBLYAI_API_KEY || "";
sampleRate = options.sampleRate || 16000;
formatTurns = options.formatTurns || true;
then throws "AssemblyAI API key is required" when apiKey is still empty. -/
def mkAssemblyAISTT (options : AssemblyAISTTOptions) (env : Env) : Except String AssemblyAISTT :=
  if tsOrStr options.apiKey (tsOrStr (env envKeyName) "") = "" then
    Except.error "AssemblyAI API key is required"
  else
    Except.ok
      { apiKey := tsOrStr options.apiKey (tsOrStr (env envKeyName) ""),
        sampleRate := tsOrNat options.sampleRate 16000,
        formatTurns := tsOrBool options.formatTurns true }

/-- URL query parameters built in the _connection getter (stt.ts lines 25-28):
sample_rate from the instance, format_turns as the lowercased boolean string. -/
def connectionParams (stt : AssemblyAISTT) : List (String × String) :=
  [("sample_rate", toString stt.sampleRate),
   ("format_turns", if stt.formatTurns then "true" else "false")]

/-- getSecrets (stt.ts Lambda part, lines 137-163). Inputs: the module-level
cachedSecrets, the process environment, and the parsed SecretString the vendor
would return on a fetch (none when response.SecretString is absent). When a
cache exists it is returned with no fetch; otherwise SECRETS_ARN must be truthy,
the secret is fetched (count 1), cached, and every entry is written into the
process environment. Result: (new cache, new env, returned record, number of
fetches performed). -/
def getSecrets (cached : Option (List (String × String))) (env : Env)
    (secretString : Option (List (String × String))) :
    Except String (Option (List (String × String)) × Env × List (String × String) × Nat) :=
  match cached with
  | some c => .ok (some c, env, c, 0)
  | none =>
      if tsFalsyStr (env "SECRETS_ARN") then
        .error "SECRETS_ARN environment variable not set"
      else
        match secretString with
        | none => .error "Secret value is empty"
        | some kvs => .ok (some kvs, setEnvAll env kvs, kvs, 1)

/-! Helper lemmas shared by several claims. -/

/-- The ws "message" handler pushes at most one event per inbound message. -/
theorem wsMessageHandler_pushed_length_le_one (now : Nat) (d : Option AssemblyAISTTMessage) :
    (wsMessageHandler now d).pushed.length ≤ 1 := by
  match d with
  | none => simp [wsMessageHandler]
  | some .Begin => simp [wsMessageHandler, handleParsedMessage]
  | some .Termination => simp [wsMessageHandler, handleParsedMessage]
  | some (.Error e) => simp [wsMessageHandler, handleParsedMessage]
  | some (.Turn t fmt) =>
      cases fmt
      · simp [wsMessageHandler, handleParsedMessage]
      · by_cases h : t = "" <;> simp [wsMessageHandler, handleParsedMessage, h]

/-- Counting a filtered sublist never exceeds the list length. -/
theorem sttOutputCount_le_length (evs : List VoiceAgentEvent) :
    sttOutputCount evs ≤ evs.length :=
  List.length_filter_le _ _

/-- Pushing a batch onto an open queue appends it at the tail and keeps the
queue open. -/
theorem pushAll_open {α : Type} (xs : List α) :
    ∀ it : WritableIterator α, it.closed = false →
      pushAll it xs = { buffer := it.buffer ++ xs, closed := false } := by
  induction xs with
  | nil =>
      intro it h
      cases it
      simp_all [pushAll]
  | cons x xs ih =>
      intro it h
      have hpush : it.push x = { buffer := it.buffer ++ [x], closed := false } := by
        simp [WritableIterator.push, h]
      have hstep : pushAll it (x :: xs) = pushAll (it.push x) xs := rfl
      rw [hstep, hpush, ih _ rfl]
      simp

/-! Theorems settling the claims. -/

/-- C1: the claim says a vendor message of parsed type Error is surfaced as an
error event and terminates the stage. At the failing input — the message
Error "auth failed" — the code behaves otherwise: the throw in the "Error"
branch is caught by the handler's own surrounding catch, so the message is only
logged (console.error) exactly like a malformed message, no event is pushed,
the buffer iterator is not cancelled, and the stage continues. -/
theorem c1_error_message_only_logged_not_fatal :
    wsMessageHandler 0 (some (.Error "auth failed")) =
      { pushed := [], loggedError := true, cancelled := false } ∧
    wsMessageHandler 0 (some (.Error "auth failed")) = wsMessageHandler 0 none := by
  exact ⟨rfl, rfl⟩

/-- C2: close on an instance with an open connection first sends the
terminate_session force-finalize message, then waits the 100 ms grace period,
and only then calls ws.close(); on the defensive path where ws.send throws, the
teardown still comes last. -/
theorem c2_close_sends_finalize_waits_then_tears_down (s : STTState)
    (h : s.hasConnection = true) :
    (closeStep s false).2 =
      [CloseAction.sendTerminate, CloseAction.waitMs 100, CloseAction.closeWs] ∧
    (closeStep s true).2 = [CloseAction.sendTerminate, CloseAction.closeWs] := by
  simp [closeStep, closeActions, h]

/-- Witness for C2 at a concrete open-connection state. -/
theorem c2_close_sends_finalize_waits_then_tears_down_witness :
    (closeStep { hasConnection := true, events := { buffer := [], closed := false } } false).2 =
      [CloseAction.sendTerminate, CloseAction.waitMs 100, CloseAction.closeWs] :=
  (c2_close_sends_finalize_waits_then_tears_down
    { hasConnection := true, events := { buffer := [], closed := false } } rfl).1

/-- C3 counterexample: a vendor Turn message with turn_is_formatted true but an
empty transcript is a completed-turn message for which the stage emits no
stt_output at all — `if (message.transcript)` skips the push — refuting
"exactly one stt_output for every formatted Turn message". -/
theorem c3_counterexample_empty_formatted_turn :
    (wsMessageHandler 7 (some (.Turn "" true))).pushed = [] := rfl

/-- C3 amended: a formatted Turn message with a non-empty transcript emits
exactly one stt_output carrying that transcript; a formatted Turn with an empty
transcript emits nothing; an unformatted Turn emits one stt_chunk. -/
theorem c3_formatted_turn_exactly_one_output (now : Nat) (t : String) (h : t ≠ "") :
    (wsMessageHandler now (some (.Turn t true))).pushed =
      [VoiceAgentEvent.stt_output t now] ∧
    (wsMessageHandler now (some (.Turn "" true))).pushed = [] ∧
    (wsMessageHandler now (some (.Turn t false))).pushed =
      [VoiceAgentEvent.stt_chunk t now] := by
  refine ⟨?_, rfl, rfl⟩
  simp [wsMessageHandler, handleParsedMessage, h]

/-- Witness for C3's amended theorem at a concrete formatted turn. -/
theorem c3_formatted_turn_exactly_one_output_witness :
    (wsMessageHandler 3 (some (.Turn "turkey sandwich" true))).pushed =
      [VoiceAgentEvent.stt_output "turkey sandwich" 3] :=
  (c3_formatted_turn_exactly_one_output 3 "turkey sandwich" (by decide)).1

/-- C4: every event the ws "message" handler pushes is an stt_chunk or an
stt_output, and the Begin and Termination vendor message kinds are consumed
without producing any output event. -/
theorem c4_only_chunk_and_output_events (now : Nat) (d : Option AssemblyAISTTMessage) :
    (wsMessageHandler now d).pushed.all isSTTEventKind = true ∧
    (wsMessageHandler now (some .Begin)).pushed = [] ∧
    (wsMessageHandler now (some .Termination)).pushed = [] := by
  refine ⟨?_, rfl, rfl⟩
  match d with
  | none => rfl
  | some .Begin => rfl
  | some .Termination => rfl
  | some (.Error e) => rfl
  | some (.Turn t fmt) =>
      cases fmt
      · rfl
      · by_cases h : t = "" <;>
          simp [wsMessageHandler, handleParsedMessage, h, isSTTEventKind]

/-- C5 counterexample: sendAudio on a Session whose connection has closed (the
ws "close" handler has reset _connectionPromise to null) is not rejected with an
error: the _connection getter silently establishes a new vendor connection and
the audio is sent on it. -/
theorem c5_counterexample_send_after_close_reconnects :
    (sendAudio { hasConnection := false, events := { buffer := [], closed := false } }).2 =
      SendAudioResult.openedNewConnectionAndSent ∧
    (sendAudio { hasConnection := false, events := { buffer := [], closed := false } }).1.hasConnection =
      true := by
  exact ⟨rfl, rfl⟩

/-- C5 amended: sendAudio on a Session with no live connection is never rejected
synchronously; instead the _connection getter silently opens a fresh vendor
connection (hasConnection becomes true) and the audio is sent on it. -/
theorem c5_send_after_close_opens_new_connection (s : STTState)
    (h : s.hasConnection = false) :
    (sendAudio s).2 = SendAudioResult.openedNewConnectionAndSent ∧
    (sendAudio s).1 = { s with hasConnection := true } := by
  simp [sendAudio, h]

/-- Witness for C5's amended theorem at a concrete closed state. -/
theorem c5_send_after_close_opens_new_connection_witness :
    (sendAudio { hasConnection := false, events := { buffer := [], closed := false } }).2 =
      SendAudioResult.openedNewConnectionAndSent :=
  (c5_send_after_close_opens_new_connection
    { hasConnection := false, events := { buffer := [], closed := false } } rfl).1

/-- C6: close is idempotent. A second close after a completed close (after which
the ws "close" handler has cleared _connectionPromise) changes no state, pushes
no events and performs no vendor-connection action; and each vendor message —
in particular the final formatted Turn elicited by the force-finalize — adds at
most one stt_output to the output. -/
theorem c6_close_idempotent (s : STTState) (f g : Bool) (now : Nat)
    (d : Option AssemblyAISTTMessage) :
    closeStep (closeStep s f).1 g = ((closeStep s f).1, []) ∧
    sttOutputCount (wsMessageHandler now d).pushed ≤ 1 := by
  constructor
  · by_cases h : s.hasConnection <;> simp [closeStep, h]
  · exact le_trans (sttOutputCount_le_length _)
      (wsMessageHandler_pushed_length_le_one now d)

/-- C7: the vendor messages are deposited into the buffer iterator in arrival
order and receiveEvents drains them FIFO — the drained sequence is exactly the
previous contents followed by the handler's events for each message in arrival
order, with no reordering, loss or duplication. -/
theorem c7_receive_events_fifo (msgs : List (Nat × Option AssemblyAISTTMessage)) :
    ∀ it : WritableIterator VoiceAgentEvent, it.closed = false →
      receiveEvents (processMessages it msgs) = receiveEvents it ++ emittedEvents msgs := by
  induction msgs with
  | nil =>
      intro it h
      simp [processMessages, emittedEvents, receiveEvents]
  | cons nd rest ih =>
      intro it h
      have hstep : processMessages it (nd :: rest) =
          processMessages (pushAll it (wsMessageHandler nd.1 nd.2).pushed) rest := rfl
      rw [hstep, pushAll_open _ it h, ih _ rfl]
      simp [receiveEvents, emittedEvents]

/-- Witness for C7 on a concrete two-message arrival sequence. -/
theorem c7_receive_events_fifo_witness :
    receiveEvents (processMessages { buffer := [], closed := false }
        [(1, some (.Turn "he" false)), (2, some (.Turn "hello" true))]) =
      [VoiceAgentEvent.stt_chunk "he" 1, VoiceAgentEvent.stt_output "hello" 2] := by
  rw [c7_receive_events_fifo [(1, some (.Turn "he" false)), (2, some (.Turn "hello" true))]
    { buffer := [], closed := false } rfl]
  rfl

/-- C8 counterexample: the AssemblyAISTT constructor, called with no apiKey
option, obtains the credential by an ambient lookup of the process environment
variable ASSEMBLYAI_API_KEY — refuting "no call site performs an ambient lookup
of global mutable state to obtain credentials". -/
theorem c8_counterexample_constructor_reads_env :
    mkAssemblyAISTT { apiKey := none, sampleRate := none, formatTurns := none }
      (setEnvVar (fun _ => none) envKeyName "from-env") =
      Except.ok { apiKey := "from-env", sampleRate := 16000, formatTurns := true } := rfl

/-- C8 amended: the underlying secret fetch is memoized — a getSecrets call that
finds a cache returns it with zero fetches and leaves the environment untouched
— but credentials are propagated through process environment variables, and the
AssemblyAISTT constructor falls back to an ambient process.env lookup of
ASSEMBLYAI_API_KEY whenever options.apiKey is absent. -/
theorem c8_fetch_once_but_ambient_env_fallback (c : List (String × String)) (env : Env)
    (ss : Option (List (String × String))) (k : String) (hk : k ≠ "")
    (henv : env envKeyName = some k) :
    getSecrets (some c) env ss = Except.ok (some c, env, c, 0) ∧
    mkAssemblyAISTT { apiKey := none, sampleRate := none, formatTurns := none } env =
      Except.ok { apiKey := k, sampleRate := 16000, formatTurns := true } := by
  refine ⟨rfl, ?_⟩
  simp [mkAssemblyAISTT, tsOrStr, tsOrNat, tsOrBool, henv, hk]

/-- Witness for C8's amended theorem at a concrete cache and environment. -/
theorem c8_fetch_once_but_ambient_env_fallback_witness :
    getSecrets (some [("A", "b")]) (setEnvVar (fun _ => none) envKeyName "from-env") none =
      Except.ok (some [("A", "b")], setEnvVar (fun _ => none) envKeyName "from-env",
        [("A", "b")], 0) :=
  (c8_fetch_once_but_ambient_env_fallback [("A", "b")]
    (setEnvVar (fun _ => none) envKeyName "from-env") none "from-env" (by decide) rfl).1

/-- C9: every successfully constructed AssemblyAISTT instance has formatTurns
true — options.formatTurns || true is true even for an explicit false — and the
connection URL parameters therefore always carry format_turns=true. -/
theorem c9_formatTurns_always_true (o : AssemblyAISTTOptions) (env : Env)
    (r : AssemblyAISTT) (h : mkAssemblyAISTT o env = Except.ok r) :
    r.formatTurns = true ∧
    connectionParams r =
      [("sample_rate", toString r.sampleRate), ("format_turns", "true")] := by
  have hf : r.formatTurns = true := by
    simp only [mkAssemblyAISTT] at h
    split at h
    · exact Except.noConfusion h
    · injection h with h2
      subst h2
      cases hb : o.formatTurns <;> simp [tsOrBool, hb]
  exact ⟨hf, by simp [connectionParams, hf]⟩

/-- Witness for C9 with formatTurns explicitly passed as false. -/
theorem c9_formatTurns_always_true_witness :
    ({ apiKey := "k", sampleRate := 16000, formatTurns := true } : AssemblyAISTT).formatTurns =
      true ∧
    connectionParams { apiKey := "k", sampleRate := 16000, formatTurns := true } =
      [("sample_rate", toString (16000 : Nat)), ("format_turns", "true")] :=
  c9_formatTurns_always_true
    { apiKey := some "k", sampleRate := none, formatTurns := some false }
    (fun _ => none) { apiKey := "k", sampleRate := 16000, formatTurns := true } rfl

/-- C10: the constructor throws "AssemblyAI API key is required" exactly when
options.apiKey is absent or empty and the ASSEMBLYAI_API_KEY environment
variable is also absent or empty; and whenever options.apiKey is truthy it takes
precedence — the constructed instance's apiKey is options.apiKey regardless of
the environment. -/
theorem c10_apikey_required_iff (o : AssemblyAISTTOptions) (env : Env) :
    (mkAssemblyAISTT o env = Except.error "AssemblyAI API key is required" ↔
      tsFalsyStr o.apiKey = true ∧ tsFalsyStr (env envKeyName) = true) ∧
    (tsFalsyStr o.apiKey = false →
      (mkAssemblyAISTT o env).toOption.map AssemblyAISTT.apiKey = o.apiKey) := by
  cases ha : o.apiKey with
  | none =>
      cases he : env envKeyName with
      | none => simp [mkAssemblyAISTT, tsOrStr, tsFalsyStr, ha, he]
      | some e =>
          by_cases h : e = "" <;>
            simp [mkAssemblyAISTT, tsOrStr, tsFalsyStr, ha, he, h]
  | some a =>
      by_cases h : a = ""
      · subst h
        cases he : env envKeyName with
        | none => simp [mkAssemblyAISTT, tsOrStr, tsFalsyStr, ha, he]
        | some e =>
            by_cases h2 : e = "" <;>
              simp [mkAssemblyAISTT, tsOrStr, tsFalsyStr, ha, he, h2]
      · refine ⟨by simp [mkAssemblyAISTT, tsOrStr, tsFalsyStr, ha, h], ?_⟩
        intro _
        simp [mkAssemblyAISTT, tsOrStr, ha, h, Except.toOption]

/-- Witness for C10: with nothing set the constructor throws; with both an
option key and an environment key set, the option key wins. -/
theorem c10_apikey_required_iff_witness :
    mkAssemblyAISTT { apiKey := none, sampleRate := none, formatTurns := none }
      (fun _ => none) = Except.error "AssemblyAI API key is required" ∧
    (mkAssemblyAISTT { apiKey := some "opt-key", sampleRate := none, formatTurns := none }
        (setEnvVar (fun _ => none) envKeyName "env-key")).toOption.map
      AssemblyAISTT.apiKey = some "opt-key" :=
  ⟨(c10_apikey_required_iff { apiKey := none, sampleRate := none, formatTurns := none }
      (fun _ => none)).1.mpr ⟨rfl, rfl⟩,
   (c10_apikey_required_iff { apiKey := some "opt-key", sampleRate := none, formatTurns := none }
      (setEnvVar (fun _ => none) envKeyName "env-key")).2 (by decide)⟩

end VoiceSandwich
